import Mathlib

/-!
Verification of the terraform-provider-st-digicert repository's retry/backoff
subsystem, its AliCloud DNS wrappers, and its DigiCert API wrappers.

The Go sources embedded here are:
  * digicert/dns/platform/alicloud/dns/client.go  (NewClient)
  * digicert/dns/platform/alicloud/dns/dnsrr.go   (GetAllDnsRecords,
    AddDnsRecord, UpdateDnsRecord, DeleteDnsRecord, CreateAliDNSRecord)
  * the digicertapi package file (IssueCert, GetOrdersList, CancelOrderRequest,
    RevokeCert, RevokeAllCert, ...)

The packages `backoff_retry` (RetryOperator) and `alicloud`
(IsPermanentCommonError) are referenced by dnsrr.go but their sources are not
part of the repository snapshot; they are modelled from the spec, as marked on
each definition.

Remote HTTP behaviour (the AliCloud SDK client and the DigiCert HTTP endpoint)
is abstracted as oracle functions: each network call site consumes the
oracle's answer for its request; retried call sites additionally pass the
attempt index, so distinct attempts may observe distinct outcomes.
-/

namespace StDigicert

/-! ## Substring matching (Go `strings.Contains`) -/

/-- Prefix test on character lists: `strHasPfx needle hay` is true when
`needle` is an initial segment of `hay`. -/
def strHasPfx : List Char → List Char → Bool
  | [], _ => true
  | _ :: _, [] => false
  | c :: cs, d :: ds => c == d && strHasPfx cs ds

/-- `listContainsSub needle hay` is true when `needle` occurs contiguously
inside `hay` (the semantics of Go `strings.Contains`). -/
def listContainsSub (needle : List Char) : List Char → Bool
  | [] => strHasPfx needle []
  | c :: t => strHasPfx needle (c :: t) || listContainsSub needle t

/-- Go `strings.Contains(hay, needle)`. -/
def strContainsSub (hay needle : String) : Bool :=
  listContainsSub needle.toList hay.toList

/-! ## Error Classifier -/

/-- The two error classifications of the spec's data model. -/
inductive ErrorClassification
  | Transient
  | Permanent
  deriving DecidableEq

/-- Modelled from the spec: the documented permanent-error vocabulary of the
`alicloud` package's `IsPermanentCommonError`, whose source file is not in the
repository snapshot.  The spec documents exactly one member of the vocabulary
concretely ("missing authentication credentials" is permanent) and states the
full list is provider-specific and not enumerated. -/
def permanentErrorVocabulary : List String :=
  ["missing authentication credentials"]

/-- Modelled from the spec: the Error Classifier `classify`.  Returns
`Permanent` exactly when the input text contains (case-sensitively, by
substring) a member of the documented permanent-error vocabulary, otherwise
`Transient`; it is a total function and never fails. -/
def classify (errorMessage : String) : ErrorClassification :=
  if permanentErrorVocabulary.any (fun s => strContainsSub errorMessage s) then
    ErrorClassification.Permanent
  else
    ErrorClassification.Transient

/-- Modelled from the spec: `alicloud.IsPermanentCommonError`, the boolean view
of the Error Classifier used by the dnsrr.go closures. -/
def IsPermanentCommonError (msg : String) : Bool :=
  match classify msg with
  | ErrorClassification.Permanent => true
  | ErrorClassification.Transient => false

/-! ## Retry Operator -/

/-- Result of one attempt of an operation closure: Go `nil`, or an error whose
message is `msg`, wrapped with `backoff.Permanent` when `permanent` is true. -/
inductive AttemptResult
  | ok
  | err (msg : String) (permanent : Bool)
  deriving DecidableEq

/-- Terminal failure of the Retry Operator, wrapped so a caller can tell a
permanent-classification stop from an elapsed-time-budget stop; both carry the
last observed error's message. -/
inductive RetryError
  | permanent (msg : String)
  | timedOut (msg : String)
  deriving DecidableEq

/-- The message text a terminal retry failure renders to when formatted into a
wrapper's error string (the last observed error's message). -/
def RetryError.render : RetryError → String
  | RetryError.permanent msg => msg
  | RetryError.timedOut msg => msg

/-- Modelled from the spec: the loop of `backoff_retry.RetryOperator` (whose
source file is not in the repository snapshot).  `op n` is the outcome of
attempt number `n`; `delay n` is the backoff-schedule cost (in the same time
unit as `maxElapsed`) separating attempt `n` from attempt `n + 1`; `elapsed`
is the time since the first attempt; `fuel` bounds the recursion and is chosen
by `retryOperator` to be large enough never to be exhausted before the elapsed
budget under any positive delay schedule.  On success it returns the index of
the succeeding attempt (the Go closure communicates its result by assigning
captured variables in its final, successful run). -/
def retryGo (op : Nat → AttemptResult) (delay : Nat → Nat) (maxElapsed : Nat) :
    Nat → Nat → Nat → Except RetryError Nat
  | attempt, _elapsed, 0 =>
    match op attempt with
    | AttemptResult.ok => Except.ok attempt
    | AttemptResult.err msg perm =>
      if perm then Except.error (RetryError.permanent msg)
      else Except.error (RetryError.timedOut msg)
  | attempt, elapsed, Nat.succ fuel =>
    match op attempt with
    | AttemptResult.ok => Except.ok attempt
    | AttemptResult.err msg perm =>
      if perm then Except.error (RetryError.permanent msg)
      else if maxElapsed < elapsed + delay attempt then
        Except.error (RetryError.timedOut msg)
      else
        retryGo op delay maxElapsed (attempt + 1) (elapsed + delay attempt) fuel

/-- Modelled from the spec: `backoff_retry.RetryOperator` — run the operation
with backoff until it succeeds, an error is tagged permanent, or the elapsed
time exceeds `maxElapsed`. -/
def retryOperator (op : Nat → AttemptResult) (delay : Nat → Nat)
    (maxElapsed : Nat) : Except RetryError Nat :=
  retryGo op delay maxElapsed 0 0 (maxElapsed + 1)

/-- Total backoff-schedule time consumed by the first `n` attempts. -/
def sumDelay (delay : Nat → Nat) : Nat → Nat
  | 0 => 0
  | Nat.succ n => sumDelay delay n + delay n

/-! ## AliCloud DNS data model (dnsrr.go / client.go) -/

/-- `alidns.DescribeDomainRecordsResponseBodyDomainRecordsRecord` — the fields
dereferenced by dnsrr.go.  Go's `Type` field is spelled `ty` (`Type` is a Lean
keyword). -/
structure DnsRecord where
  DomainName : String
  RR : String
  ty : String
  Value : String
  RecordId : String
  deriving DecidableEq

/-- `alidns.DescribeDomainRecordsRequest` as built by `GetAllDnsRecords`. -/
structure DescribeDomainRecordsRequest where
  DomainName : String
  PageSize : Int
  deriving DecidableEq

/-- `alidns.AddDomainRecordRequest` as built by `AddDnsRecord`. -/
structure AddDomainRecordRequest where
  DomainName : String
  RR : String
  ty : String
  Value : String
  deriving DecidableEq

/-- `alidns.UpdateDomainRecordRequest` as built by `UpdateDnsRecord`. -/
structure UpdateDomainRecordRequest where
  RecordId : String
  RR : String
  ty : String
  Value : String
  deriving DecidableEq

/-- `alidns.DeleteDomainRecordRequest` as built by `DeleteDnsRecord`. -/
structure DeleteDomainRecordRequest where
  RecordId : String
  deriving DecidableEq

/-- Oracle for the AliCloud SDK client (`a.Client`) wrapped by the `Alidns`
methods, together with the backoff schedule the retry operator draws its
delays from.  Each remote call is a function of the request the Go code built
for it; calls that sit inside retried closures additionally take the attempt
number, since each retry performs a fresh network call which may answer
differently.  `Option String` results are Go's `error` (`none` = `nil`);
`Except String String` is an (`error`, value) pair. -/
structure AlidnsEnv where
  describeDomainRecords : DescribeDomainRecordsRequest → Except String (List DnsRecord)
  addDomainRecord : AddDomainRecordRequest → Nat → Except String String
  updateDomainRecord : UpdateDomainRecordRequest → Nat → Option String
  deleteDomainRecord : DeleteDomainRecordRequest → Nat → Option String
  delay : Nat → Nat

/-- dnsrr.go `MAX_ELAPSED_TIME = 10 * time.Minute`, in nanoseconds (Go's
`time.Duration` unit). -/
def MAX_ELAPSED_TIME : Nat := 600000000000

/-- dnsrr.go `GetAllDnsRecords`: one `DescribeDomainRecords` call with the
page size fixed at 500 and no paging loop; returns the single page. -/
def GetAllDnsRecords (env : AlidnsEnv) (domain : String) :
    Except String (List DnsRecord) :=
  let describeDomainRecordsRequest : DescribeDomainRecordsRequest :=
    { DomainName := domain, PageSize := 500 }
  match env.describeDomainRecords describeDomainRecordsRequest with
  | Except.error e => Except.error e
  | Except.ok response => Except.ok response

/-- dnsrr.go `AddDnsRecord` at attempt `n`: build the request and return the
new record's id, or the call's error. -/
def AddDnsRecord (env : AlidnsEnv) (domain rrType rr value : String) (n : Nat) :
    Except String String :=
  let addDomainRecordRequest : AddDomainRecordRequest :=
    { DomainName := domain, RR := rr, ty := rrType, Value := value }
  match env.addDomainRecord addDomainRecordRequest n with
  | Except.error e => Except.error e
  | Except.ok response => Except.ok response

/-- dnsrr.go `UpdateDnsRecord` at attempt `n`: build the request; `none` is a
`nil` error. -/
def UpdateDnsRecord (env : AlidnsEnv) (id rrType subdomain value : String)
    (n : Nat) : Option String :=
  let updateDomainRecordRequest : UpdateDomainRecordRequest :=
    { RecordId := id, RR := subdomain, ty := rrType, Value := value }
  env.updateDomainRecord updateDomainRecordRequest n

/-- The `deleteDnsRecord` closure body of dnsrr.go `DeleteDnsRecord`, applied
to the outcome of its single client call: a failure is classified through
`IsPermanentCommonError` and tagged `backoff.Permanent` exactly when the
classifier says permanent; success is `nil`. -/
def deleteDnsRecordClosure (result : Option String) : AttemptResult :=
  match result with
  | some msg =>
    if IsPermanentCommonError msg then AttemptResult.err msg true
    else AttemptResult.err msg false
  | none => AttemptResult.ok

/-- The `addRecord` closure body of dnsrr.go `CreateAliDNSRecord`, applied to
the outcome of its `AddDnsRecord` call. -/
def addRecordClosure (result : Except String String) : AttemptResult :=
  match result with
  | Except.error msg =>
    if IsPermanentCommonError msg then AttemptResult.err msg true
    else AttemptResult.err msg false
  | Except.ok _ => AttemptResult.ok

/-- The `updateRecord` closure body of dnsrr.go `CreateAliDNSRecord`, applied
to the outcome of its `UpdateDnsRecord` call. -/
def updateRecordClosure (result : Option String) : AttemptResult :=
  match result with
  | some msg =>
    if IsPermanentCommonError msg then AttemptResult.err msg true
    else AttemptResult.err msg false
  | none => AttemptResult.ok

/-- dnsrr.go `DeleteDnsRecord`: retry the delete closure under
`MAX_ELAPSED_TIME`; a terminal retry error is wrapped with
`fmt.Errorf("Alidns delete dns record. Failed to Delete dns record: %v", err)`. -/
def DeleteDnsRecord (env : AlidnsEnv) (id : String) : Except String Unit :=
  let deleteDomainRecordRequest : DeleteDomainRecordRequest := { RecordId := id }
  let deleteDnsRecord := fun n =>
    deleteDnsRecordClosure (env.deleteDomainRecord deleteDomainRecordRequest n)
  match retryOperator deleteDnsRecord env.delay MAX_ELAPSED_TIME with
  | Except.error e =>
    Except.error ("Alidns delete dns record. Failed to Delete dns record: "
      ++ RetryError.render e)
  | Except.ok _ => Except.ok ()

/-- dnsrr.go `CreateAliDNSRecord`: list the domain's records; empty list is
"domain name not found in Alidns"; otherwise find the first `@`/`TXT` record
of `commonName` and update it to `token` under retry, or, when none exists,
add a fresh `@`/`TXT` record with value `token` under retry and return the
created record's id (the Go closure assigns the named return `recordId` on its
successful attempt; the unreachable `Except.ok ""` arm corresponds to a
succeeding retry whose final attempt had failed, which `retryOperator` never
produces). -/
def CreateAliDNSRecord (env : AlidnsEnv) (commonName token : String) :
    Except String String :=
  match GetAllDnsRecords env commonName with
  | Except.error e => Except.error e
  | Except.ok dnsRecords =>
    if dnsRecords.length = 0 then
      Except.error "domain name not found in Alidns"
    else
      match dnsRecords.find? (fun dnsRecord =>
          dnsRecord.DomainName == commonName && dnsRecord.RR == "@"
            && dnsRecord.ty == "TXT") with
      | none =>
        let addRecord := fun n =>
          addRecordClosure (AddDnsRecord env commonName "TXT" "@" token n)
        match retryOperator addRecord env.delay MAX_ELAPSED_TIME with
        | Except.error e =>
          Except.error
            ("Alidns create dns record. Failed to create verification TXT record: "
              ++ RetryError.render e)
        | Except.ok k =>
          match AddDnsRecord env commonName "TXT" "@" token k with
          | Except.ok recordId => Except.ok recordId
          | Except.error _ => Except.ok ""
      | some foundDnsRecord =>
        let updateRecord := fun n =>
          updateRecordClosure (UpdateDnsRecord env foundDnsRecord.RecordId
            foundDnsRecord.ty foundDnsRecord.RR token n)
        match retryOperator updateRecord env.delay MAX_ELAPSED_TIME with
        | Except.error e =>
          Except.error
            ("Alidns update dns record. Failed to Update verification TXT record: "
              ++ RetryError.render e)
        | Except.ok _ => Except.ok foundDnsRecord.RecordId

/-! ## AliCloud DNS client construction (client.go) -/

/-- `openapi.Config` — the fields client.go sets. -/
structure Config where
  AccessKeyId : String
  AccessKeySecret : String
  Endpoint : String
  deriving DecidableEq

/-- The `alidns.Client` value as far as client.go observes it: a client holding
the configuration it was built from (`alidns.NewClient` cannot fail on the
non-nil config client.go passes). -/
structure AlidnsClient where
  config : Config
  deriving DecidableEq

/-- The SDK constructor `alidns.NewClient` at the boundary client.go uses. -/
def alidnsNewClient (config : Config) : AlidnsClient :=
  { config := config }

/-- The `Alidns` wrapper struct of dnsrr.go. -/
structure Alidns where
  Client : AlidnsClient
  deriving DecidableEq

/-- client.go `NewClient`: reject an empty access or secret key before any
construction, otherwise build the client from a config carrying both keys and
the fixed endpoint `alidns.cn-hongkong.aliyuncs.com`. -/
def NewClient (accessKey secretKey : String) : Except String Alidns :=
  if accessKey = "" then
    Except.error "dns.newClient(): missing access_key"
  else if secretKey = "" then
    Except.error "dns.newClient(): missing secret_key"
  else
    let config : Config :=
      { AccessKeyId := accessKey, AccessKeySecret := secretKey,
        Endpoint := "alidns.cn-hongkong.aliyuncs.com" }
    Except.ok { Client := alidnsNewClient config }

/-! ## DigiCert API data model (digicertapi package) -/

def ORDER_ENDPOINT : String := "https://www.digicert.com/services/v2/order/certificate"

def CERT_ENDPOINT : String := "https://www.digicert.com/services/v2/certificate"

/-- `digicertapi.ErrorMsg`. -/
structure ErrorMsg where
  Code : String
  Message : String
  deriving DecidableEq

/-- `digicertapi.ErrorMsgList`. -/
structure ErrorMsgList where
  ErrorMsg : List ErrorMsg
  deriving DecidableEq

/-- `digicertapi.Organization`. -/
structure Organization where
  ID : Int
  deriving DecidableEq

/-- `digicertapi.CertificatePayload` — the fields relevant to `IssueCert`
(JSON-only plumbing fields kept as plain strings/lists). -/
structure CertificatePayload where
  ID : Int
  Organization : Organization
  CommonName : String
  DNSNames : List String
  CSR : String
  SignatureHash : String
  CACertID : String
  deriving DecidableEq

/-- `digicertapi.OrderValidityPayload`. -/
structure OrderValidityPayload where
  Days : Int
  deriving DecidableEq

/-- `digicertapi.OrderPayload`. -/
structure OrderPayload where
  Certificate : CertificatePayload
  Organization : Organization
  OrderValidity : OrderValidityPayload
  PaymentMethod : String
  RenewalOfOrderID : Int
  DcvMethod : String
  deriving DecidableEq

/-- `digicertapi.CertificateChain`. -/
structure CertificateChain where
  SubjectCommonName : String
  Pem : String
  deriving DecidableEq

/-- `digicertapi.DcvToken`. -/
structure DcvToken where
  Token : String
  Status : String
  deriving DecidableEq

/-- `digicertapi.DomainRespBody`. -/
structure DomainRespBody where
  ID : Int
  Name : String
  DcvToken : DcvToken
  deriving DecidableEq

/-- `digicertapi.IssueCertRespBody` — the decoded fields. -/
structure IssueCertRespBody where
  OrderID : Int
  CertificateID : Int
  CertificateChain : List CertificateChain
  Domains : List DomainRespBody
  SubjectCommonName : String
  OrderValidTill : String
  DcvRandomValue : String
  ErrorMsg : List ErrorMsg
  deriving DecidableEq

/-- `digicertapi.Certificate` — the decoded fields. -/
structure Certificate where
  ID : Int
  Status : String
  CommonName : String
  ValidTill : String
  deriving DecidableEq

/-- `digicertapi.OrderRespBody`. -/
structure OrderRespBody where
  ID : Int
  Certificate : Certificate
  Status : String
  OrderValidTill : String
  IsRenewed : Bool
  ErrorMsg : List ErrorMsg
  deriving DecidableEq

/-- `digicertapi.OrderListRespBody`. -/
structure OrderListRespBody where
  Orders : List OrderRespBody
  ErrorMsg : List ErrorMsg
  deriving DecidableEq

/-- Oracle for the digicertapi `Client`'s effectful collaborators:
`c.httpResponse(method, url, payload)` returning the raw response body string
or an error, `json.Marshal` of an order payload, and `json.Unmarshal` of a
body into each response schema the embedded wrappers decode to. -/
structure DigicertEnv where
  httpResponse : String → String → Option String → Except String String
  marshalOrderPayload : OrderPayload → Except String String
  decodeIssueCert : String → Except String IssueCertRespBody
  decodeOrderList : String → Except String OrderListRespBody
  decodeErrorMsgList : String → Except String ErrorMsgList

/-- The raw JSON payload literal of `RevokeCert`. -/
def revokeCertPayloadJson : String :=
  "\x7b\n\t\t\"skip_approval\": true\n\t\x7d"

/-- The raw JSON payload literal of `RevokeAllCert`. -/
def revokeAllCertPayloadJson : String :=
  "\x7b\n\t\t\"skip_approval\": true\n\t\t\x7d"

/-- The raw JSON payload literal of `CancelOrderRequest`. -/
def cancelOrderPayloadJson : String :=
  "\x7b\n\t\t\"status\": \"canceled\",\n\t\t\"note\": \"Fail validate domain.\"\n\t\x7d"

/-- digicertapi `IssueCert`: marshal the payload, POST it to
`ORDER_ENDPOINT/<CACertID>`, decode the body, and turn a non-empty decoded
errors list into the error
`"error issue certificate, error: <code>. <message>"`. -/
def IssueCert (env : DigicertEnv) (orderPayLoad : OrderPayload) :
    Except String IssueCertRespBody :=
  let url := ORDER_ENDPOINT ++ "/" ++ orderPayLoad.Certificate.CACertID
  match env.marshalOrderPayload orderPayLoad with
  | Except.error e => Except.error e
  | Except.ok jsonPayload =>
    match env.httpResponse "POST" url (some jsonPayload) with
    | Except.error e => Except.error e
    | Except.ok resp =>
      match env.decodeIssueCert resp with
      | Except.error e => Except.error e
      | Except.ok issueCert =>
        match issueCert.ErrorMsg with
        | e0 :: _ =>
          Except.error ("error issue certificate, error: "
            ++ (e0.Code ++ ". " ++ e0.Message))
        | [] => Except.ok issueCert

/-- digicertapi `GetOrdersList`: GET the issued-orders listing and decode it.
When the decoded errors list is non-empty the Go loop only logs
`strings.Contains(code, "Missing authentication")` for each entry — a side
effect with no influence on the return values — and the function still
returns the decoded body with a `nil` error. -/
def GetOrdersList (env : DigicertEnv) : Except String OrderListRespBody :=
  let url := ORDER_ENDPOINT ++ "?filters[status]=issued"
  match env.httpResponse "GET" url none with
  | Except.error e => Except.error e
  | Except.ok resp =>
    match env.decodeOrderList resp with
    | Except.error e => Except.error e
    | Except.ok orders => Except.ok orders

/-- digicertapi `CancelOrderRequest`: PUT the cancel payload to
`ORDER_ENDPOINT/<orderId>/status`.  When the call succeeds but the response
body is non-empty, the Go code executes `return err` with `err` still `nil`,
so both branches return `nil`. -/
def CancelOrderRequest (env : DigicertEnv) (orderId : Int) :
    Except String Unit :=
  let url := ORDER_ENDPOINT ++ "/" ++ toString orderId ++ "/status"
  match env.httpResponse "PUT" url (some cancelOrderPayloadJson) with
  | Except.error e => Except.error e
  | Except.ok ordStatusResp =>
    if ordStatusResp.length ≠ 0 then Except.ok ()
    else Except.ok ()

/-- digicertapi `RevokeCert`: PUT the revoke payload to
`CERT_ENDPOINT/<certId>/revoke`; an empty body means success, a non-empty body
is decoded and a non-empty errors list becomes an error carrying the first
entry's message. -/
def RevokeCert (env : DigicertEnv) (certId : Int) : Except String Unit :=
  let url := CERT_ENDPOINT ++ "/" ++ toString certId ++ "/revoke"
  match env.httpResponse "PUT" url (some revokeCertPayloadJson) with
  | Except.error e => Except.error e
  | Except.ok resp =>
    if resp.length ≠ 0 then
      match env.decodeErrorMsgList resp with
      | Except.error e => Except.error e
      | Except.ok errMsgList =>
        match errMsgList.ErrorMsg with
        | m :: _ => Except.error m.Message
        | [] => Except.ok ()
    else Except.ok ()

/-- digicertapi `RevokeAllCert`: same shape as `RevokeCert` against
`ORDER_ENDPOINT/<orderId>/revoke`. -/
def RevokeAllCert (env : DigicertEnv) (orderId : Int) : Except String Unit :=
  let url := ORDER_ENDPOINT ++ "/" ++ toString orderId ++ "/revoke"
  match env.httpResponse "PUT" url (some revokeAllCertPayloadJson) with
  | Except.error e => Except.error e
  | Except.ok resp =>
    if resp.length ≠ 0 then
      match env.decodeErrorMsgList resp with
      | Except.error e => Except.error e
      | Except.ok errMsgList =>
        match errMsgList.ErrorMsg with
        | m :: _ => Except.error m.Message
        | [] => Except.ok ()
    else Except.ok ()

/-! ## Retry Operator lemmas -/

/-- A successful retry run's returned index is an attempt on which the
operation succeeded. -/
theorem retryGo_ok_attempt (op : Nat → AttemptResult) (delay : Nat → Nat)
    (maxElapsed : Nat) :
    ∀ fuel attempt elapsed k,
      retryGo op delay maxElapsed attempt elapsed fuel = Except.ok k →
      op k = AttemptResult.ok := by
  intro fuel
  induction fuel with
  | zero =>
    intro attempt elapsed k h
    rw [retryGo] at h
    cases hop : op attempt with
    | ok =>
      rw [hop] at h
      simp only [Except.ok.injEq] at h
      rw [← h]
      exact hop
    | err msg perm =>
      rw [hop] at h
      cases perm <;> simp at h
  | succ f ih =>
    intro attempt elapsed k h
    rw [retryGo] at h
    cases hop : op attempt with
    | ok =>
      rw [hop] at h
      simp only [Except.ok.injEq] at h
      rw [← h]
      exact hop
    | err msg perm =>
      rw [hop] at h
      cases perm with
      | true => simp at h
      | false =>
        by_cases ht : maxElapsed < elapsed + delay attempt
        · simp [ht] at h
        · simp only [Bool.false_eq_true, if_false, ht] at h
          exact ih _ _ _ h

/-- A successful retry of the Retry Operator succeeded on the attempt whose
index it returns. -/
theorem retryOperator_ok_attempt (op : Nat → AttemptResult) (delay : Nat → Nat)
    (maxElapsed k : Nat)
    (h : retryOperator op delay maxElapsed = Except.ok k) :
    op k = AttemptResult.ok :=
  retryGo_ok_attempt op delay maxElapsed (maxElapsed + 1) 0 0 k h

/-- With a positive backoff schedule, at least `n` schedule time elapses over
the first `n` attempts. -/
theorem sumDelay_ge (delay : Nat → Nat) (hd : ∀ n, 1 ≤ delay n) :
    ∀ n, n ≤ sumDelay delay n := by
  intro n
  induction n with
  | zero => simp [sumDelay]
  | succ m ih =>
    have := hd m
    simp only [sumDelay]
    omega

/-- When every attempt fails transiently, the retry loop stops at the first
attempt `k` whose cumulative schedule time exceeds the budget, returning that
attempt's error as a timeout. -/
theorem retryGo_timeout (op : Nat → AttemptResult) (delay : Nat → Nat)
    (maxElapsed : Nat) (msgs : Nat → String)
    (hop : ∀ n, op n = AttemptResult.err (msgs n) false) (k : Nat)
    (hk : maxElapsed < sumDelay delay (k + 1))
    (hbef : ∀ j, j < k → sumDelay delay (j + 1) ≤ maxElapsed) :
    ∀ fuel attempt, attempt ≤ k → k - attempt < fuel →
      retryGo op delay maxElapsed attempt (sumDelay delay attempt) fuel
        = Except.error (RetryError.timedOut (msgs k)) := by
  intro fuel
  induction fuel with
  | zero =>
    intro attempt _ hfa
    omega
  | succ f ih =>
    intro attempt hak hfa
    rw [retryGo, hop attempt]
    simp only [Bool.false_eq_true, if_false]
    by_cases hcase : attempt = k
    · subst hcase
      rw [if_pos]
      exact hk
    · have hlt : attempt < k := Nat.lt_of_le_of_ne hak hcase
      rw [if_neg]
      · exact ih (attempt + 1) hlt (by omega)
      · have := hbef attempt hlt
        simp only [sumDelay] at this
        omega

/-- C1: for every operation closure, backoff schedule and `maxElapsed`
duration, `retryOperator` (1) returns success immediately once the attempt
the loop is at succeeds, whatever the remaining fuel, elapsed time, or later
attempts would do; (2) when the attempt's error is tagged `Permanent`, it
returns exactly that error immediately, again independent of any later
attempt; (3) when every attempt fails transiently, it keeps retrying and
stops at the first attempt `k` whose cumulative backoff-schedule time
exceeds `maxElapsed`, returning that most recent attempt's error. -/
theorem retryOperator_termination_policy
    (op : Nat → AttemptResult) (delay : Nat → Nat) (maxElapsed : Nat) :
    (∀ attempt elapsed fuel, op attempt = AttemptResult.ok →
        retryGo op delay maxElapsed attempt elapsed fuel = Except.ok attempt)
    ∧ (∀ attempt elapsed fuel msg, op attempt = AttemptResult.err msg true →
        retryGo op delay maxElapsed attempt elapsed fuel
          = Except.error (RetryError.permanent msg))
    ∧ (∀ msgs : Nat → String,
        (∀ n, op n = AttemptResult.err (msgs n) false) →
        (∀ n, 1 ≤ delay n) →
        ∃ k, maxElapsed < sumDelay delay (k + 1)
          ∧ (∀ j, j < k → sumDelay delay (j + 1) ≤ maxElapsed)
          ∧ retryOperator op delay maxElapsed
              = Except.error (RetryError.timedOut (msgs k))) := by
  refine ⟨?_, ?_, ?_⟩
  · intro attempt elapsed fuel h
    cases fuel <;> rw [retryGo, h]
  · intro attempt elapsed fuel msg h
    cases fuel <;> rw [retryGo, h] <;> simp
  · intro msgs hop hd
    have hex : ∃ n, maxElapsed < sumDelay delay (n + 1) := by
      refine ⟨maxElapsed, ?_⟩
      have := sumDelay_ge delay hd (maxElapsed + 1)
      omega
    have hbef : ∀ j, j < Nat.find hex → sumDelay delay (j + 1) ≤ maxElapsed := by
      intro j hj
      have := Nat.find_min hex hj
      omega
    refine ⟨Nat.find hex, Nat.find_spec hex, hbef, ?_⟩
    have hfind_le : Nat.find hex ≤ maxElapsed := Nat.find_min' hex (by
      have := sumDelay_ge delay hd (maxElapsed + 1)
      omega)
    exact retryGo_timeout op delay maxElapsed msgs hop (Nat.find hex)
      (Nat.find_spec hex) hbef (maxElapsed + 1) 0 (Nat.zero_le _) (by omega)

/-- Witness for C1 at concrete inputs: an immediately succeeding operation, a
permanently failing one, and an always-transiently-failing one under the
schedule `delay = 7`, budget `10`. -/
theorem retryOperator_termination_policy_witness :
    retryGo (fun _ => AttemptResult.ok) (fun _ => 1) 5 0 0 6 = Except.ok 0
    ∧ retryGo (fun _ => AttemptResult.err "auth" true) (fun _ => 1) 5 0 0 6
        = Except.error (RetryError.permanent "auth")
    ∧ ∃ k, 10 < sumDelay (fun _ => 7) (k + 1)
        ∧ (∀ j, j < k → sumDelay (fun _ => 7) (j + 1) ≤ 10)
        ∧ retryOperator (fun _ => AttemptResult.err "boom" false) (fun _ => 7) 10
            = Except.error (RetryError.timedOut "boom") :=
  ⟨(retryOperator_termination_policy (fun _ => AttemptResult.ok)
      (fun _ => 1) 5).1 0 0 6 rfl,
   (retryOperator_termination_policy (fun _ => AttemptResult.err "auth" true)
      (fun _ => 1) 5).2.1 0 0 6 "auth" rfl,
   (retryOperator_termination_policy (fun _ => AttemptResult.err "boom" false)
      (fun _ => 7) 10).2.2 (fun _ => "boom") (fun _ => rfl)
      (fun _ => by decide)⟩

/-- Every run in which no attempt ever succeeds ends in a terminal error whose
message is some attempt's error message, tagged `permanent` or `timedOut`
according to that attempt's classification. -/
theorem retryGo_failure_shape (op : Nat → AttemptResult) (delay : Nat → Nat)
    (maxElapsed : Nat) (hop : ∀ n, op n ≠ AttemptResult.ok) :
    ∀ fuel attempt elapsed, ∃ k msg perm,
      op k = AttemptResult.err msg perm ∧
      retryGo op delay maxElapsed attempt elapsed fuel
        = Except.error (if perm then RetryError.permanent msg
            else RetryError.timedOut msg) := by
  intro fuel
  induction fuel with
  | zero =>
    intro attempt elapsed
    cases hop' : op attempt with
    | ok => exact absurd hop' (hop attempt)
    | err msg perm =>
      refine ⟨attempt, msg, perm, hop', ?_⟩
      rw [retryGo, hop']
      cases perm <;> simp
  | succ f ih =>
    intro attempt elapsed
    cases hop' : op attempt with
    | ok => exact absurd hop' (hop attempt)
    | err msg perm =>
      cases perm with
      | true =>
        refine ⟨attempt, msg, true, hop', ?_⟩
        rw [retryGo, hop']
        simp
      | false =>
        by_cases ht : maxElapsed < elapsed + delay attempt
        · refine ⟨attempt, msg, false, hop', ?_⟩
          rw [retryGo, hop']
          simp [ht]
        · obtain ⟨k, msg', perm', hk, hres⟩ := ih (attempt + 1) (elapsed + delay attempt)
          refine ⟨k, msg', perm', hk, ?_⟩
          rw [retryGo, hop']
          simpa [ht] using hres

/-- C7: whenever no attempt succeeds, `retryOperator` returns the observed
error of the attempt it stopped at, wrapped `RetryError.permanent` when that
attempt was classified permanent and `RetryError.timedOut` when the elapsed
budget was exhausted on transient failures; the two wrappings are
recognizably distinct values. -/
theorem retryOperator_failure_distinguishable
    (op : Nat → AttemptResult) (delay : Nat → Nat) (maxElapsed : Nat)
    (hop : ∀ n, op n ≠ AttemptResult.ok) :
    (∃ k msg perm, op k = AttemptResult.err msg perm ∧
      retryOperator op delay maxElapsed
        = Except.error (if perm then RetryError.permanent msg
            else RetryError.timedOut msg))
    ∧ (∀ a b, RetryError.permanent a ≠ RetryError.timedOut b) := by
  constructor
  · exact retryGo_failure_shape op delay maxElapsed hop (maxElapsed + 1) 0 0
  · intro a b h
    cases h

/-- Witness for C7: a permanently failing operation at budget 5. -/
theorem retryOperator_failure_distinguishable_witness :
    (∃ k msg perm,
      (fun _ : Nat => AttemptResult.err "denied" true) k
          = AttemptResult.err msg perm ∧
      retryOperator (fun _ => AttemptResult.err "denied" true) (fun _ => 1) 5
        = Except.error (if perm then RetryError.permanent msg
            else RetryError.timedOut msg))
    ∧ (∀ a b, RetryError.permanent a ≠ RetryError.timedOut b) :=
  retryOperator_failure_distinguishable
    (fun _ => AttemptResult.err "denied" true) (fun _ => 1) 5
    (fun _ h => AttemptResult.noConfusion h)

/-! ## Error Classifier lemmas -/

/-- Every character list is a prefix of itself. -/
theorem strHasPfx_self : ∀ l : List Char, strHasPfx l l = true := by
  intro l
  induction l with
  | nil => rfl
  | cons c t ih => simp [strHasPfx, ih]

/-- A list occurs as a substring of anything it is a suffix of. -/
theorem listContainsSub_append_self (pfx n : List Char) :
    listContainsSub n (pfx ++ n) = true := by
  induction pfx with
  | nil =>
    cases n with
    | nil => rfl
    | cons c t => simp [listContainsSub, strHasPfx_self]
  | cons c t ih => simp [listContainsSub, ih]

/-- A string contains every string it ends with. -/
theorem strContainsSub_append_left (p s : String) :
    strContainsSub (p ++ s) s = true := by
  unfold strContainsSub
  have hdata : (p ++ s).toList = p.toList ++ s.toList := String.data_append p s
  rw [hdata]
  exact listContainsSub_append_self p.toList s.toList

/-- C6: `classify` returns `Permanent` exactly when the input contains
(case-sensitively, as a substring) a member of the documented permanent-error
vocabulary; it is total (always one of the two classifications, never a
crash); `"missing authentication credentials"` is `Permanent` while the empty
string and `"service temporarily unavailable"` are `Transient`. -/
theorem classify_spec :
    (∀ msg, classify msg = ErrorClassification.Permanent
        ↔ ∃ s ∈ permanentErrorVocabulary, strContainsSub msg s = true)
    ∧ (∀ msg, classify msg = ErrorClassification.Permanent
        ∨ classify msg = ErrorClassification.Transient)
    ∧ classify "missing authentication credentials" = ErrorClassification.Permanent
    ∧ classify "" = ErrorClassification.Transient
    ∧ classify "service temporarily unavailable" = ErrorClassification.Transient := by
  refine ⟨?_, ?_, by decide, by decide, by decide⟩
  · intro msg
    unfold classify
    by_cases h : permanentErrorVocabulary.any (fun s => strContainsSub msg s) = true
    · simp only [h, if_true, true_iff]
      exact List.any_eq_true.mp h
    · simp only [h, if_false]
      constructor
      · intro hcontra
        exact absurd hcontra (by simp)
      · intro hex
        exact absurd (List.any_eq_true.mpr hex) h
  · intro msg
    unfold classify
    by_cases h : permanentErrorVocabulary.any (fun s => strContainsSub msg s) = true
    · exact Or.inl (by simp [h])
    · exact Or.inr (by simp [h])

/-! ## NewClient -/

/-- C8: `NewClient` rejects an empty access key (before looking at the secret
key), rejects an empty secret key, and otherwise returns an Alidns client
whose configuration carries both keys and the fixed endpoint
`alidns.cn-hongkong.aliyuncs.com`. -/
theorem NewClient_spec (accessKey secretKey : String) :
    (accessKey = "" →
      NewClient accessKey secretKey
        = Except.error "dns.newClient(): missing access_key")
    ∧ (accessKey ≠ "" → secretKey = "" →
      NewClient accessKey secretKey
        = Except.error "dns.newClient(): missing secret_key")
    ∧ (accessKey ≠ "" → secretKey ≠ "" →
      NewClient accessKey secretKey = Except.ok
        { Client := alidnsNewClient
            { AccessKeyId := accessKey, AccessKeySecret := secretKey,
              Endpoint := "alidns.cn-hongkong.aliyuncs.com" } }) := by
  refine ⟨?_, ?_, ?_⟩
  · intro h
    simp [NewClient, h]
  · intro h1 h2
    simp [NewClient, h1, h2]
  · intro h1 h2
    simp [NewClient, h1, h2]

/-- Witness for C8 at concrete keys. -/
theorem NewClient_spec_witness :
    NewClient "" "sk" = Except.error "dns.newClient(): missing access_key"
    ∧ NewClient "ak" "" = Except.error "dns.newClient(): missing secret_key"
    ∧ NewClient "ak" "sk" = Except.ok
        { Client := alidnsNewClient
            { AccessKeyId := "ak", AccessKeySecret := "sk",
              Endpoint := "alidns.cn-hongkong.aliyuncs.com" } } :=
  ⟨(NewClient_spec "" "sk").1 rfl,
   (NewClient_spec "ak" "").2.1 (by decide) rfl,
   (NewClient_spec "ak" "sk").2.2 (by decide) (by decide)⟩

/-! ## GetAllDnsRecords paging -/

/-- The documented first-page semantics of the AliCloud
`DescribeDomainRecords` API: a successful answer is the first `PageSize`
records the provider holds for the requested domain (`backend` being the
provider's full record set). -/
def DescribeReturnsFirstPage (env : AlidnsEnv) (backend : List DnsRecord) : Prop :=
  ∀ req recs, env.describeDomainRecords req = Except.ok recs →
    recs = (backend.filter
        (fun r => r.DomainName == req.DomainName)).take req.PageSize.toNat

/-- C9: `GetAllDnsRecords` performs exactly one `DescribeDomainRecords` call,
with `PageSize` fixed at 500 and no paging loop; hence, against a provider
honouring the first-page semantics, the returned list is the first 500 of the
domain's records — at most 500 long, with nothing at any index beyond —
so any further records are never returned and never seen by
`CreateAliDNSRecord`'s search. -/
theorem GetAllDnsRecords_single_page (env : AlidnsEnv) (domain : String) :
    (GetAllDnsRecords env domain
        = env.describeDomainRecords { DomainName := domain, PageSize := 500 })
    ∧ (∀ backend recs, DescribeReturnsFirstPage env backend →
        GetAllDnsRecords env domain = Except.ok recs →
        recs = (backend.filter (fun r => r.DomainName == domain)).take 500
          ∧ recs.length ≤ 500
          ∧ ∀ i, 500 ≤ i → recs.get? i = none) := by
  have heq : GetAllDnsRecords env domain
      = env.describeDomainRecords { DomainName := domain, PageSize := 500 } := by
    unfold GetAllDnsRecords
    cases h : env.describeDomainRecords { DomainName := domain, PageSize := 500 } <;>
      simp [h]
  refine ⟨heq, ?_⟩
  intro backend recs hfp hget
  rw [heq] at hget
  have hrecs := hfp _ _ hget
  have htake : recs = (backend.filter (fun r => r.DomainName == domain)).take 500 := hrecs
  have hlen : recs.length ≤ 500 := by
    rw [htake]
    simp [List.length_take]
  exact ⟨htake, hlen, fun i hi => List.get?_eq_none.mpr (le_trans hlen hi)⟩

/-- A one-record provider backend used by concrete witnesses. -/
def sampleBackend : List DnsRecord :=
  [{ DomainName := "example.com", RR := "@", ty := "TXT",
     Value := "v0", RecordId := "1" }]

/-- A concrete environment whose provider honours first-page semantics over
`sampleBackend` and whose mutating calls all succeed. -/
def sampleEnv : AlidnsEnv :=
  { describeDomainRecords := fun req => Except.ok
      ((sampleBackend.filter
          (fun r => r.DomainName == req.DomainName)).take req.PageSize.toNat),
    addDomainRecord := fun _ _ => Except.ok "77",
    updateDomainRecord := fun _ _ => none,
    deleteDomainRecord := fun _ _ => none,
    delay := fun _ => 1 }

/-- The page `sampleEnv` answers for `example.com`. -/
def sampleRecs : List DnsRecord :=
  [{ DomainName := "example.com", RR := "@", ty := "TXT",
     Value := "v0", RecordId := "1" }]

/-- Witness for C9 at the concrete environment `sampleEnv`. -/
theorem GetAllDnsRecords_single_page_witness :
    sampleRecs = (sampleBackend.filter
        (fun r => r.DomainName == "example.com")).take 500
    ∧ sampleRecs.length ≤ 500
    ∧ ∀ i, 500 ≤ i → sampleRecs.get? i = none :=
  (GetAllDnsRecords_single_page sampleEnv "example.com").2 sampleBackend
    sampleRecs (fun _ recs h => by injection h with h; exact h.symm) rfl

/-! ## CreateAliDNSRecord / DeleteDnsRecord lemmas -/

/-- A list on which `find?` hits is non-empty. -/
theorem find?_ne_nil {records : List DnsRecord} {p : DnsRecord → Bool}
    {r : DnsRecord} (h : records.find? p = some r) : records ≠ [] := by
  intro hnil
  subst hnil
  simp [List.find?] at h

/-- `DeleteDnsRecord` unfolded: the retried delete closure's terminal result
decides the wrapper's result. -/
theorem DeleteDnsRecord_eq (env : AlidnsEnv) (id : String) :
    DeleteDnsRecord env id
      = match retryOperator (fun n => deleteDnsRecordClosure
            (env.deleteDomainRecord { RecordId := id } n))
          env.delay MAX_ELAPSED_TIME with
        | Except.error e =>
          Except.error ("Alidns delete dns record. Failed to Delete dns record: "
            ++ RetryError.render e)
        | Except.ok _ => Except.ok () := rfl

/-- `CreateAliDNSRecord` on the update path: when the record listing succeeds
and contains a matching record, the result is decided by the retried update
of the first matching record. -/
theorem CreateAliDNSRecord_found (env : AlidnsEnv) (commonName token : String)
    (records : List DnsRecord) (r : DnsRecord)
    (hget : GetAllDnsRecords env commonName = Except.ok records)
    (hfind : records.find? (fun dnsRecord =>
        dnsRecord.DomainName == commonName && dnsRecord.RR == "@"
          && dnsRecord.ty == "TXT") = some r) :
    CreateAliDNSRecord env commonName token
      = match retryOperator (fun n => updateRecordClosure
            (UpdateDnsRecord env r.RecordId r.ty r.RR token n))
          env.delay MAX_ELAPSED_TIME with
        | Except.error e =>
          Except.error
            ("Alidns update dns record. Failed to Update verification TXT record: "
              ++ RetryError.render e)
        | Except.ok _ => Except.ok r.RecordId := by
  have hlen : ¬(records.length = 0) := by
    intro h0
    exact find?_ne_nil hfind (List.length_eq_zero.mp h0)
  unfold CreateAliDNSRecord
  rw [hget]
  simp only [if_neg hlen, hfind]

/-- `CreateAliDNSRecord` on the add path: when the record listing succeeds,
is non-empty, and holds no matching record, the result is decided by the
retried add of a fresh `@`/`TXT` record carrying the token. -/
theorem CreateAliDNSRecord_notfound (env : AlidnsEnv) (commonName token : String)
    (records : List DnsRecord)
    (hget : GetAllDnsRecords env commonName = Except.ok records)
    (hne : records ≠ [])
    (hfind : records.find? (fun dnsRecord =>
        dnsRecord.DomainName == commonName && dnsRecord.RR == "@"
          && dnsRecord.ty == "TXT") = none) :
    CreateAliDNSRecord env commonName token
      = match retryOperator (fun n => addRecordClosure
            (AddDnsRecord env commonName "TXT" "@" token n))
          env.delay MAX_ELAPSED_TIME with
        | Except.error e =>
          Except.error
            ("Alidns create dns record. Failed to create verification TXT record: "
              ++ RetryError.render e)
        | Except.ok k =>
          match AddDnsRecord env commonName "TXT" "@" token k with
          | Except.ok recordId => Except.ok recordId
          | Except.error _ => Except.ok "" := by
  have hlen : ¬(records.length = 0) := fun h0 => hne (List.length_eq_zero.mp h0)
  unfold CreateAliDNSRecord
  rw [hget]
  simp only [if_neg hlen, hfind]

/-- `CreateAliDNSRecord` on an empty listing: the result is the
domain-not-found error, whatever the add/update behaviour. -/
theorem CreateAliDNSRecord_empty (env : AlidnsEnv) (commonName token : String)
    (hget : GetAllDnsRecords env commonName = Except.ok []) :
    CreateAliDNSRecord env commonName token
      = Except.error "domain name not found in Alidns" := by
  unfold CreateAliDNSRecord
  rw [hget]
  simp

/-- C3: given a successful record listing, `CreateAliDNSRecord` (1) on an
empty listing fails with "domain name not found in Alidns" and performs no
add or update — its result does not depend on the add/update behaviour at
all; (2) when the listing holds a record with the common name, `@`, and
`TXT`, it updates the first such record's value to the token under retry and
returns that record's id; (3) otherwise it adds a fresh `@`/`TXT` record with
value token under retry and returns the newly created record's id. -/
theorem CreateAliDNSRecord_spec (env : AlidnsEnv) (commonName token : String)
    (records : List DnsRecord)
    (hget : GetAllDnsRecords env commonName = Except.ok records) :
    (records = [] →
      ∀ add upd,
        CreateAliDNSRecord
          { env with addDomainRecord := add, updateDomainRecord := upd }
          commonName token
          = Except.error "domain name not found in Alidns")
    ∧ (∀ r, records.find? (fun dnsRecord =>
          dnsRecord.DomainName == commonName && dnsRecord.RR == "@"
            && dnsRecord.ty == "TXT") = some r →
        (∀ k, retryOperator (fun n => updateRecordClosure
              (UpdateDnsRecord env r.RecordId r.ty r.RR token n))
            env.delay MAX_ELAPSED_TIME = Except.ok k →
          CreateAliDNSRecord env commonName token = Except.ok r.RecordId)
        ∧ (∀ e, retryOperator (fun n => updateRecordClosure
              (UpdateDnsRecord env r.RecordId r.ty r.RR token n))
            env.delay MAX_ELAPSED_TIME = Except.error e →
          CreateAliDNSRecord env commonName token
            = Except.error
                ("Alidns update dns record. Failed to Update verification TXT record: "
                  ++ RetryError.render e)))
    ∧ (records ≠ [] →
       records.find? (fun dnsRecord =>
          dnsRecord.DomainName == commonName && dnsRecord.RR == "@"
            && dnsRecord.ty == "TXT") = none →
        (∀ k, retryOperator (fun n => addRecordClosure
              (AddDnsRecord env commonName "TXT" "@" token n))
            env.delay MAX_ELAPSED_TIME = Except.ok k →
          ∃ recordId, AddDnsRecord env commonName "TXT" "@" token k
              = Except.ok recordId
            ∧ CreateAliDNSRecord env commonName token = Except.ok recordId)
        ∧ (∀ e, retryOperator (fun n => addRecordClosure
              (AddDnsRecord env commonName "TXT" "@" token n))
            env.delay MAX_ELAPSED_TIME = Except.error e →
          CreateAliDNSRecord env commonName token
            = Except.error
                ("Alidns create dns record. Failed to create verification TXT record: "
                  ++ RetryError.render e))) := by
  refine ⟨?_, ?_, ?_⟩
  · intro hrec add upd
    subst hrec
    exact CreateAliDNSRecord_empty _ commonName token hget
  · intro r hfind
    constructor
    · intro k hretry
      rw [CreateAliDNSRecord_found env commonName token records r hget hfind,
        hretry]
    · intro e hretry
      rw [CreateAliDNSRecord_found env commonName token records r hget hfind,
        hretry]
  · intro hne hfind
    constructor
    · intro k hretry
      have hcl : addRecordClosure (AddDnsRecord env commonName "TXT" "@" token k)
          = AttemptResult.ok :=
        retryOperator_ok_attempt _ env.delay MAX_ELAPSED_TIME k hretry
      cases hadd : AddDnsRecord env commonName "TXT" "@" token k with
      | error msg =>
        rw [hadd] at hcl
        by_cases hp : IsPermanentCommonError msg <;>
          simp [addRecordClosure, hp] at hcl
      | ok recordId =>
        refine ⟨recordId, rfl, ?_⟩
        rw [CreateAliDNSRecord_notfound env commonName token records hget hne hfind,
          hretry]
        simp only [hadd]
    · intro e hretry
      rw [CreateAliDNSRecord_notfound env commonName token records hget hne hfind,
        hretry]

/-- An environment whose listing answers with no records at all. -/
def emptyEnv : AlidnsEnv :=
  { describeDomainRecords := fun _ => Except.ok [],
    addDomainRecord := fun _ _ => Except.ok "77",
    updateDomainRecord := fun _ _ => none,
    deleteDomainRecord := fun _ _ => none,
    delay := fun _ => 1 }

/-- An environment whose listing has records but no apex TXT record, and whose
add call succeeds with record id 77. -/
def addEnv : AlidnsEnv :=
  { describeDomainRecords := fun _ => Except.ok
      [{ DomainName := "example.com", RR := "www", ty := "A",
         Value := "1.2.3.4", RecordId := "9" }],
    addDomainRecord := fun _ _ => Except.ok "77",
    updateDomainRecord := fun _ _ => none,
    deleteDomainRecord := fun _ _ => none,
    delay := fun _ => 1 }

/-- An environment whose every mutating call fails with a permanent
(credential) error. -/
def failEnv : AlidnsEnv :=
  { describeDomainRecords := fun _ => Except.error "listing failed",
    addDomainRecord := fun _ _ => Except.error "missing authentication credentials",
    updateDomainRecord := fun _ _ => some "missing authentication credentials",
    deleteDomainRecord := fun _ _ => some "missing authentication credentials",
    delay := fun _ => 1 }

/-- Witness for C3 on all three paths: empty listing, matching record
updated, and fresh record added. -/
theorem CreateAliDNSRecord_spec_witness :
    CreateAliDNSRecord emptyEnv "example.com" "tok"
        = Except.error "domain name not found in Alidns"
    ∧ CreateAliDNSRecord sampleEnv "example.com" "tok" = Except.ok "1"
    ∧ ∃ recordId, AddDnsRecord addEnv "example.com" "TXT" "@" "tok" 0
          = Except.ok recordId
        ∧ CreateAliDNSRecord addEnv "example.com" "tok" = Except.ok recordId :=
  ⟨(CreateAliDNSRecord_spec emptyEnv "example.com" "tok" [] rfl).1 rfl
      emptyEnv.addDomainRecord emptyEnv.updateDomainRecord,
   ((CreateAliDNSRecord_spec sampleEnv "example.com" "tok" sampleRecs rfl).2.1
      { DomainName := "example.com", RR := "@", ty := "TXT",
        Value := "v0", RecordId := "1" } rfl).1 0 rfl,
   ((CreateAliDNSRecord_spec addEnv "example.com" "tok"
      [{ DomainName := "example.com", RR := "www", ty := "A",
         Value := "1.2.3.4", RecordId := "9" }] rfl).2.2
      (by decide) rfl).1 0 rfl⟩

/-- C4: each retried Alidns closure (delete, add, update) maps a successful
attempt to `ok`; on a failed attempt it invokes the error classifier on the
error's message and tags the error `Permanent` exactly when the classifier
reports permanent (the tag is the classifier's verdict, and the two taggings
are distinct values), passing every other error through untagged. -/
theorem alidnsClosures_classify :
    (∀ result : Option String,
      (deleteDnsRecordClosure result = AttemptResult.ok ↔ result = none)
      ∧ ∀ msg, result = some msg →
          deleteDnsRecordClosure result
            = AttemptResult.err msg (IsPermanentCommonError msg))
    ∧ (∀ result : Except String String,
      ((∃ recordId, result = Except.ok recordId) →
          addRecordClosure result = AttemptResult.ok)
      ∧ ∀ msg, result = Except.error msg →
          addRecordClosure result
            = AttemptResult.err msg (IsPermanentCommonError msg))
    ∧ (∀ result : Option String,
      (updateRecordClosure result = AttemptResult.ok ↔ result = none)
      ∧ ∀ msg, result = some msg →
          updateRecordClosure result
            = AttemptResult.err msg (IsPermanentCommonError msg))
    ∧ (∀ msg, AttemptResult.err msg true ≠ AttemptResult.err msg false) := by
  refine ⟨?_, ?_, ?_, ?_⟩
  · intro result
    constructor
    · cases result with
      | none => simp [deleteDnsRecordClosure]
      | some msg =>
        by_cases hp : IsPermanentCommonError msg <;>
          simp [deleteDnsRecordClosure, hp]
    · intro msg h
      rw [h]
      unfold deleteDnsRecordClosure
      by_cases hp : IsPermanentCommonError msg <;> simp [hp]
  · intro result
    constructor
    · rintro ⟨recordId, rfl⟩
      rfl
    · intro msg h
      rw [h]
      unfold addRecordClosure
      by_cases hp : IsPermanentCommonError msg <;> simp [hp]
  · intro result
    constructor
    · cases result with
      | none => simp [updateRecordClosure]
      | some msg =>
        by_cases hp : IsPermanentCommonError msg <;>
          simp [updateRecordClosure, hp]
    · intro msg h
      rw [h]
      unfold updateRecordClosure
      by_cases hp : IsPermanentCommonError msg <;> simp [hp]
  · intro msg h
    simp at h

/-- Witness for C4 at concrete attempt outcomes: a credential error is tagged
permanent, an unlisted error stays transient, successes map to `ok`. -/
theorem alidnsClosures_classify_witness :
    deleteDnsRecordClosure (some "missing authentication credentials")
        = AttemptResult.err "missing authentication credentials" true
    ∧ addRecordClosure (Except.error "service temporarily unavailable")
        = AttemptResult.err "service temporarily unavailable" false
    ∧ updateRecordClosure none = AttemptResult.ok
    ∧ addRecordClosure (Except.ok "77") = AttemptResult.ok :=
  ⟨(alidnsClosures_classify.1 (some "missing authentication credentials")).2
      "missing authentication credentials" rfl,
   (alidnsClosures_classify.2.1
      (Except.error "service temporarily unavailable")).2
      "service temporarily unavailable" rfl,
   (alidnsClosures_classify.2.2.1 none).1.mpr rfl,
   (alidnsClosures_classify.2.1 (Except.ok "77")).1 ⟨"77", rfl⟩⟩

/-- C5: `DeleteDnsRecord` and both retried `CreateAliDNSRecord` paths return
success exactly when the Retry Operator succeeded; a terminal retry error is
never swallowed — the wrapper returns an error whose message embeds the
terminal error's text. -/
theorem wrappers_propagate_retry_errors (env : AlidnsEnv)
    (id commonName token : String) (records : List DnsRecord) :
    (DeleteDnsRecord env id = Except.ok ()
      ↔ ∃ k, retryOperator (fun n => deleteDnsRecordClosure
            (env.deleteDomainRecord { RecordId := id } n))
          env.delay MAX_ELAPSED_TIME = Except.ok k)
    ∧ (∀ e, retryOperator (fun n => deleteDnsRecordClosure
          (env.deleteDomainRecord { RecordId := id } n))
        env.delay MAX_ELAPSED_TIME = Except.error e →
        DeleteDnsRecord env id
          = Except.error ("Alidns delete dns record. Failed to Delete dns record: "
              ++ RetryError.render e)
        ∧ strContainsSub
            ("Alidns delete dns record. Failed to Delete dns record: "
              ++ RetryError.render e) (RetryError.render e) = true)
    ∧ (GetAllDnsRecords env commonName = Except.ok records →
       ∀ r, records.find? (fun dnsRecord =>
          dnsRecord.DomainName == commonName && dnsRecord.RR == "@"
            && dnsRecord.ty == "TXT") = some r →
        ((∃ recordId, CreateAliDNSRecord env commonName token
            = Except.ok recordId)
          ↔ ∃ k, retryOperator (fun n => updateRecordClosure
                (UpdateDnsRecord env r.RecordId r.ty r.RR token n))
              env.delay MAX_ELAPSED_TIME = Except.ok k)
        ∧ (∀ e, retryOperator (fun n => updateRecordClosure
              (UpdateDnsRecord env r.RecordId r.ty r.RR token n))
            env.delay MAX_ELAPSED_TIME = Except.error e →
          CreateAliDNSRecord env commonName token
            = Except.error
                ("Alidns update dns record. Failed to Update verification TXT record: "
                  ++ RetryError.render e)
          ∧ strContainsSub
              ("Alidns update dns record. Failed to Update verification TXT record: "
                ++ RetryError.render e) (RetryError.render e) = true))
    ∧ (GetAllDnsRecords env commonName = Except.ok records → records ≠ [] →
       records.find? (fun dnsRecord =>
          dnsRecord.DomainName == commonName && dnsRecord.RR == "@"
            && dnsRecord.ty == "TXT") = none →
        ((∃ recordId, CreateAliDNSRecord env commonName token
            = Except.ok recordId)
          ↔ ∃ k, retryOperator (fun n => addRecordClosure
                (AddDnsRecord env commonName "TXT" "@" token n))
              env.delay MAX_ELAPSED_TIME = Except.ok k)
        ∧ (∀ e, retryOperator (fun n => addRecordClosure
              (AddDnsRecord env commonName "TXT" "@" token n))
            env.delay MAX_ELAPSED_TIME = Except.error e →
          CreateAliDNSRecord env commonName token
            = Except.error
                ("Alidns create dns record. Failed to create verification TXT record: "
                  ++ RetryError.render e)
          ∧ strContainsSub
              ("Alidns create dns record. Failed to create verification TXT record: "
                ++ RetryError.render e) (RetryError.render e) = true)) := by
  refine ⟨?_, ?_, ?_, ?_⟩
  · rw [DeleteDnsRecord_eq]
    cases hres : retryOperator (fun n => deleteDnsRecordClosure
        (env.deleteDomainRecord { RecordId := id } n))
        env.delay MAX_ELAPSED_TIME with
    | error e => simp
    | ok k => simp
  · intro e hres
    rw [DeleteDnsRecord_eq, hres]
    exact ⟨rfl, strContainsSub_append_left _ _⟩
  · intro hget r hfind
    rw [CreateAliDNSRecord_found env commonName token records r hget hfind]
    constructor
    · cases hres : retryOperator (fun n => updateRecordClosure
          (UpdateDnsRecord env r.RecordId r.ty r.RR token n))
          env.delay MAX_ELAPSED_TIME with
      | error e => simp
      | ok k => simp
    · intro e hres
      rw [hres]
      exact ⟨rfl, strContainsSub_append_left _ _⟩
  · intro hget hne hfind
    rw [CreateAliDNSRecord_notfound env commonName token records hget hne hfind]
    constructor
    · cases hres : retryOperator (fun n => addRecordClosure
          (AddDnsRecord env commonName "TXT" "@" token n))
          env.delay MAX_ELAPSED_TIME with
      | error e => simp
      | ok k =>
        constructor
        · intro _
          exact ⟨k, rfl⟩
        · intro _
          cases hadd : AddDnsRecord env commonName "TXT" "@" token k with
          | ok recordId => exact ⟨recordId, by simp [hadd]⟩
          | error msg => exact ⟨"", by simp [hadd]⟩
    · intro e hres
      rw [hres]
      exact ⟨rfl, strContainsSub_append_left _ _⟩

/-- Witness for C5: a succeeding delete returns `ok`; a permanently failing
delete surfaces the terminal error inside the wrapper's message. -/
theorem wrappers_propagate_retry_errors_witness :
    DeleteDnsRecord sampleEnv "1" = Except.ok ()
    ∧ (DeleteDnsRecord failEnv "1"
        = Except.error ("Alidns delete dns record. Failed to Delete dns record: "
            ++ RetryError.render
                (RetryError.permanent "missing authentication credentials"))
      ∧ strContainsSub
          ("Alidns delete dns record. Failed to Delete dns record: "
            ++ RetryError.render
                (RetryError.permanent "missing authentication credentials"))
          (RetryError.render
            (RetryError.permanent "missing authentication credentials")) = true) :=
  ⟨(wrappers_propagate_retry_errors sampleEnv "1" "example.com" "tok"
      sampleRecs).1.mpr ⟨0, rfl⟩,
   (wrappers_propagate_retry_errors failEnv "1" "example.com" "tok" []).2.1
     (RetryError.permanent "missing authentication credentials") rfl⟩

/-! ## DigiCert revoke wrappers -/

/-- A string of length zero is the empty string. -/
theorem strLength_eq_zero_iff (s : String) : s.length = 0 ↔ s = "" := by
  constructor
  · intro h
    apply String.ext
    have hd : s.data.length = 0 := h
    simpa using List.length_eq_zero.mp hd
  · intro h
    rw [h]
    rfl

/-- The shared response handling of `RevokeCert` and `RevokeAllCert`: an HTTP
error propagates; an empty body is success; a non-empty body is decoded and a
non-empty decoded errors list becomes an error carrying the first entry's
message. -/
def revokeRespHandler (decode : String → Except String ErrorMsgList)
    (httpResult : Except String String) : Except String Unit :=
  match httpResult with
  | Except.error e => Except.error e
  | Except.ok resp =>
    if resp.length ≠ 0 then
      match decode resp with
      | Except.error e => Except.error e
      | Except.ok errMsgList =>
        match errMsgList.ErrorMsg with
        | m :: _ => Except.error m.Message
        | [] => Except.ok ()
    else Except.ok ()

/-- Success/failure characterisation of the shared revoke response handling. -/
theorem revokeRespHandler_spec (decode : String → Except String ErrorMsgList)
    (httpResult : Except String String) :
    (revokeRespHandler decode httpResult = Except.ok ()
      ↔ ∃ body, httpResult = Except.ok body
          ∧ (body = "" ∨ ∃ l, decode body = Except.ok l ∧ l.ErrorMsg = []))
    ∧ (∀ body l m rest, httpResult = Except.ok body → body ≠ "" →
        decode body = Except.ok l → l.ErrorMsg = m :: rest →
        revokeRespHandler decode httpResult = Except.error m.Message) := by
  constructor
  · cases httpResult with
    | error e => simp [revokeRespHandler]
    | ok body =>
      by_cases hb : body.length ≠ 0
      · have hbne : body ≠ "" := fun h => hb (by rw [h]; rfl)
        cases hd : decode body with
        | error e => simp [revokeRespHandler, hb, hd, hbne]
        | ok l =>
          cases hl : l.ErrorMsg with
          | nil => simp [revokeRespHandler, hb, hd, hl]
          | cons m rest => simp [revokeRespHandler, hb, hd, hl, hbne]
      · have hbe : body = "" := by
          rw [← strLength_eq_zero_iff]
          omega
        subst hbe
        simp [revokeRespHandler]
  · intro body l m rest hresp hbne hdec hl
    subst hresp
    have hb : body.length ≠ 0 := fun h => hbne ((strLength_eq_zero_iff body).mp h)
    simp [revokeRespHandler, hb, hdec, hl]

/-- C10: `RevokeCert` and `RevokeAllCert` return nil exactly when the HTTP
call succeeds and the response body is empty (empty body = successful
revocation) or decodes to an empty errors list; a non-empty decoded errors
list becomes an error carrying the first error's message. -/
theorem revoke_wrappers_spec (env : DigicertEnv) (certId orderId : Int) :
    (RevokeCert env certId = Except.ok ()
      ↔ ∃ body, env.httpResponse "PUT"
            (CERT_ENDPOINT ++ "/" ++ toString certId ++ "/revoke")
            (some revokeCertPayloadJson) = Except.ok body
          ∧ (body = "" ∨ ∃ l, env.decodeErrorMsgList body = Except.ok l
              ∧ l.ErrorMsg = []))
    ∧ (∀ body l m rest,
        env.httpResponse "PUT"
            (CERT_ENDPOINT ++ "/" ++ toString certId ++ "/revoke")
            (some revokeCertPayloadJson) = Except.ok body →
        body ≠ "" →
        env.decodeErrorMsgList body = Except.ok l →
        l.ErrorMsg = m :: rest →
        RevokeCert env certId = Except.error m.Message)
    ∧ (RevokeAllCert env orderId = Except.ok ()
      ↔ ∃ body, env.httpResponse "PUT"
            (ORDER_ENDPOINT ++ "/" ++ toString orderId ++ "/revoke")
            (some revokeAllCertPayloadJson) = Except.ok body
          ∧ (body = "" ∨ ∃ l, env.decodeErrorMsgList body = Except.ok l
              ∧ l.ErrorMsg = []))
    ∧ (∀ body l m rest,
        env.httpResponse "PUT"
            (ORDER_ENDPOINT ++ "/" ++ toString orderId ++ "/revoke")
            (some revokeAllCertPayloadJson) = Except.ok body →
        body ≠ "" →
        env.decodeErrorMsgList body = Except.ok l →
        l.ErrorMsg = m :: rest →
        RevokeAllCert env orderId = Except.error m.Message) := by
  have h1 : RevokeCert env certId
      = revokeRespHandler env.decodeErrorMsgList
          (env.httpResponse "PUT"
            (CERT_ENDPOINT ++ "/" ++ toString certId ++ "/revoke")
            (some revokeCertPayloadJson)) := rfl
  have h2 : RevokeAllCert env orderId
      = revokeRespHandler env.decodeErrorMsgList
          (env.httpResponse "PUT"
            (ORDER_ENDPOINT ++ "/" ++ toString orderId ++ "/revoke")
            (some revokeAllCertPayloadJson)) := rfl
  refine ⟨?_, ?_, ?_, ?_⟩
  · rw [h1]
    exact (revokeRespHandler_spec _ _).1
  · intro body l m rest hh hbne hdec hl
    rw [h1]
    exact (revokeRespHandler_spec _ _).2 body l m rest hh hbne hdec hl
  · rw [h2]
    exact (revokeRespHandler_spec _ _).1
  · intro body l m rest hh hbne hdec hl
    rw [h2]
    exact (revokeRespHandler_spec _ _).2 body l m rest hh hbne hdec hl

/-- A DigiCert environment whose HTTP layer answers every call with an empty
body. -/
def revokeOkEnv : DigicertEnv :=
  { httpResponse := fun _ _ _ => Except.ok "",
    marshalOrderPayload := fun _ => Except.ok "payload",
    decodeIssueCert := fun _ => Except.error "unexpected end of JSON input",
    decodeOrderList := fun _ => Except.error "unexpected end of JSON input",
    decodeErrorMsgList := fun _ => Except.error "unexpected end of JSON input" }

/-- A DigiCert environment whose HTTP layer answers every call with a
non-empty body that decodes, in every schema, to a one-element errors list
reporting missing authentication credentials. -/
def authFailEnv : DigicertEnv :=
  { httpResponse := fun _ _ _ =>
      Except.ok "\x7b\"errors\":[...]\x7d",
    marshalOrderPayload := fun _ => Except.ok "payload",
    decodeIssueCert := fun _ => Except.ok
      { OrderID := 0, CertificateID := 0, CertificateChain := [],
        Domains := [], SubjectCommonName := "", OrderValidTill := "",
        DcvRandomValue := "",
        ErrorMsg := [{ Code := "api_key_missing",
                       Message := "Missing authentication credentials." }] },
    decodeOrderList := fun _ => Except.ok
      { Orders := [],
        ErrorMsg := [{ Code := "api_key_missing",
                       Message := "Missing authentication credentials." }] },
    decodeErrorMsgList := fun _ => Except.ok
      { ErrorMsg := [{ Code := "api_key_missing",
                       Message := "Missing authentication credentials." }] } }

/-- Witness for C10: an empty revoke response is success; a response decoding
to a non-empty errors list surfaces the first message. -/
theorem revoke_wrappers_spec_witness :
    RevokeCert revokeOkEnv 5 = Except.ok ()
    ∧ RevokeAllCert authFailEnv 9
        = Except.error "Missing authentication credentials." :=
  ⟨(revoke_wrappers_spec revokeOkEnv 5 5).1.mpr ⟨"", rfl, Or.inl rfl⟩,
   (revoke_wrappers_spec authFailEnv 9 9).2.2.2 "\x7b\"errors\":[...]\x7d"
     { ErrorMsg := [{ Code := "api_key_missing",
                      Message := "Missing authentication credentials." }] }
     { Code := "api_key_missing",
       Message := "Missing authentication credentials." } [] rfl
     (by decide) rfl rfl⟩

/-! ## DigiCert error-swallowing wrappers (C2) -/

/-- A concrete order payload for exercising `IssueCert`. -/
def samplePayload : OrderPayload :=
  { Certificate :=
      { ID := 0, Organization := { ID := 1 }, CommonName := "example.com",
        DNSNames := ["example.com"], CSR := "csr-pem",
        SignatureHash := "sha256", CACertID := "ca1" },
    Organization := { ID := 1 },
    OrderValidity := { Days := 365 },
    PaymentMethod := "balance",
    RenewalOfOrderID := 0,
    DcvMethod := "dns-txt-token" }

/-- C2 fails on the code: with a response decoding to a non-empty errors
list, `GetOrdersList` returns the decoded body with a `nil` error (the Go
loop over the errors only logs) and `CancelOrderRequest` returns `nil` (its
`return err` executes with `err` still `nil`), while `IssueCert` does return
a non-nil error as the claim states. -/
theorem getOrdersList_and_cancel_swallow_errors :
    GetOrdersList authFailEnv = Except.ok
      { Orders := [],
        ErrorMsg := [{ Code := "api_key_missing",
                       Message := "Missing authentication credentials." }] }
    ∧ CancelOrderRequest authFailEnv 7 = Except.ok ()
    ∧ IssueCert authFailEnv samplePayload
        = Except.error
            "error issue certificate, error: api_key_missing. Missing authentication credentials." :=
  ⟨rfl, rfl, rfl⟩

end StDigicert
